import Mathlib

/-!
Verification of the `clog` logging library (github.com/teejays/clog).

The Go sources are shallowly embedded below:
* decorations and their validating constructor (`decoration.go` part),
* the formatter helpers (`decorate`, `prependTimestamp`),
* the global configuration flags,
* the `Clogger` profile, its print path, and the registry.

Side effects are made explicit: a print call returns the list of syslog
deliveries and the list of standard-output lines it performs.  The
rendered current time (`time.Now().Format(TimestampFormat)`) is passed in
as a string field of the configuration.  `log.Panicf` / `panic` are
modelled as `Option`/`Except` failure values.
-/

namespace Clog

def PACKAGE_NAME : String := "Clog"

/-! ### Decorations (source: the decoration file) -/

/-- Decoration represents an ANSI escape sequence (a string). -/
abbrev Decoration := String

def RESET : Decoration := "\x1b[0m"

def BRIGHT : Decoration := "\x1b[1m"

def DIM : Decoration := "\x1b[2m"

def UNDERSCORE : Decoration := "\x1b[4m"

def BLINK : Decoration := "\x1b[5m"

def REVERSE : Decoration := "\x1b[7m"

def HIDDEN : Decoration := "\x1b[8m"

def FG_BLACK : Decoration := "\x1b[30m"

def FG_RED : Decoration := "\x1b[31m"

def FG_GREEN : Decoration := "\x1b[32m"

def FG_YELLOW : Decoration := "\x1b[33m"

def FG_BLUE : Decoration := "\x1b[34m"

def FG_MAGENTA : Decoration := "\x1b[35m"

def FG_CYAN : Decoration := "\x1b[36m"

def FG_WHITE : Decoration := "\x1b[37m"

def BG_YELLOW : Decoration := "\x1b[43m"

/-- Embeds `decorate(msg string, Decorations ...Decoration)`: the loop
concatenates every decoration code into `decorationsCode`, and the result
is `Sprintf("%s%s%s", decorationsCode, msg, RESET)`.  Note the `RESET`
suffix is appended unconditionally, also when `Decorations` is empty. -/
def decorate (msg : String) (decorations : List Decoration) : String :=
  String.join decorations ++ msg ++ RESET

/-- Embeds `prependTimestamp(msg)` = `Sprintf("%s %s", timestamp(), msg)`;
the rendered current time `timestamp()` is the explicit argument `ts`. -/
def prependTimestamp (ts msg : String) : String :=
  ts ++ " " ++ msg

/-! ### Log levels

Modelled from the spec: the declarations of the `LogLevel` global variable
and of the constants `LogLevelDebug` … `LogLevelCrit` are in a repository
file that is not under `src/` (only their uses are).  The spec's glossary
orders them `Debug < Info < Notice < Warning < Error < Critical` and the
README states "There are six log levels (from 0-5)"; higher level means
less logging. -/

/-- Modelled from the spec: lowest severity, numeric level 0. -/
def LogLevelDebug : Int := 0

/-- Modelled from the spec: numeric level 1. -/
def LogLevelInfo : Int := 1

/-- Modelled from the spec: numeric level 2. -/
def LogLevelNotice : Int := 2

/-- Modelled from the spec: numeric level 3. -/
def LogLevelWarning : Int := 3

/-- Modelled from the spec: numeric level 4. -/
def LogLevelError : Int := 4

/-- Modelled from the spec: highest severity, numeric level 5. -/
def LogLevelCrit : Int := 5

/-! ### Syslog priorities (constants of Go `log/syslog`) -/

def LOG_CRIT : Nat := 2

def LOG_ERR : Nat := 3

def LOG_WARNING : Nat := 4

def LOG_NOTICE : Nat := 5

def LOG_INFO : Nat := 6

def LOG_DEBUG : Nat := 7

/-- Go `syslog.LOG_LOCAL1` facility, numerically `17 << 3`. -/
def LOG_LOCAL1 : Nat := 136

def DEFAULT_LOG_FACILITY : Nat := LOG_LOCAL1

/-- Embeds `LogLevelSysLogPriorityMap`, the finite map from log level to
syslog priority; a missing key is `none` (`Print`/`NewClogger` panic). -/
def LogLevelSysLogPriorityMap (logLevel : Int) : Option Nat :=
  if logLevel = LogLevelDebug then some LOG_DEBUG
  else if logLevel = LogLevelInfo then some LOG_INFO
  else if logLevel = LogLevelNotice then some LOG_NOTICE
  else if logLevel = LogLevelWarning then some LOG_WARNING
  else if logLevel = LogLevelError then some LOG_ERR
  else if logLevel = LogLevelCrit then some LOG_CRIT
  else none

/-! ### Global configuration -/

/-- Embeds the package-level configuration variables.  `tsNow` stands for
the string `time.Now().Format(TimestampFormat)` rendered at the moment of
the call; `LogLevel` is the global minimum level (its declaration is in
the repository file missing from `src/`, modelled from the spec). -/
structure Config where
  LogToStdOut : Bool
  LogToSyslog : Bool
  UseDecoration : Bool
  PrependTimestamp : Bool
  PrependLoggerName : Bool
  LogLevel : Int
  tsNow : String
deriving DecidableEq, Repr

/-- Default values of the configuration variables: `LogToStdOut = true`,
`LogToSyslog = false`, `UseDecoration = true`, `PrependTimestamp = true`,
`PrependLoggerName = true`.  The default of the global `LogLevel` is
modelled from the spec as the lowest level (its declaration is missing
from `src/`; the spec's end-to-end scenario has the default configuration
print an Info message, and the README shows all six default loggers
printing until `LogLevel` is raised). -/
def defaultConfig (ts : String) : Config :=
  { LogToStdOut := true
    LogToSyslog := false
    UseDecoration := true
    PrependTimestamp := true
    PrependLoggerName := true
    LogLevel := LogLevelDebug
    tsNow := ts }

/-! ### The Clogger profile and its print path -/

/-- Embeds `struct Clogger`.  The `Logger` field models the
`*log.Logger` syslog handle: `true` iff the handle is live (non-nil);
deliveries through it happen at `Priority`. -/
structure Clogger where
  Name : String
  Priority : Nat
  Decorations : List Decoration
  Logger : Bool
  LogLevel : Int
deriving DecidableEq, Repr

/-- Observable effects of one print call: the syslog deliveries
(priority, message) and the standard-output lines, in order. -/
structure Output where
  syslogMsgs : List (Nat × String)
  stdoutLines : List String
deriving DecidableEq, Repr

/-- Embeds `Clogger.PrintStdOut`: optionally prepend the timestamp, then
optionally wrap with the clogger's decorations; returns the line passed
to `fmt.Println`. -/
def PrintStdOut (cfg : Config) (l : Clogger) (msg : String) : String :=
  let msg := if cfg.PrependTimestamp then prependTimestamp cfg.tsNow msg else msg
  let msg := if cfg.UseDecoration then decorate msg l.Decorations else msg
  msg

/-- Embeds `Clogger.Print`: prefix the message with `"[Name] "`; deliver
to syslog when `LogToSyslog` is set and the handle is live; print to
standard output when `LogToStdOut` is set and `LogLevel <= l.LogLevel`. -/
def Print (cfg : Config) (l : Clogger) (msg : String) : Output :=
  let msg := "[" ++ l.Name ++ "] " ++ msg
  { syslogMsgs :=
      if cfg.LogToSyslog ∧ l.Logger then [(l.Priority, msg)] else []
    stdoutLines :=
      if cfg.LogToStdOut ∧ cfg.LogLevel ≤ l.LogLevel then [PrintStdOut cfg l msg] else [] }

/-- Embeds `Clogger.PrintfStdOut`: format, then `PrintStdOut`.  The
application of `fmt.Sprintf` with the call's arguments is abstracted as
the function `format`. -/
def PrintfStdOut (cfg : Config) (l : Clogger) (formatString : String)
    (format : String → String) : String :=
  PrintStdOut cfg l (format formatString)

/-- Embeds `Clogger.Printf`: prefix the format string with `"[Name] "`,
then follow the same two-sink path as `Print`, formatting with the call's
arguments (abstracted as `format`) on each sink. -/
def Printf (cfg : Config) (l : Clogger) (formatString : String)
    (format : String → String) : Output :=
  let formatString := "[" ++ l.Name ++ "] " ++ formatString
  { syslogMsgs :=
      if cfg.LogToSyslog ∧ l.Logger then [(l.Priority, format formatString)] else []
    stdoutLines :=
      if cfg.LogToStdOut ∧ cfg.LogLevel ≤ l.LogLevel then
        [PrintfStdOut cfg l formatString format]
      else [] }

/-! ### Registry -/

/-- The `cloggers` map, embedded as an association list (insertion
order is irrelevant to lookup). -/
abbrev Registry := List (String × Clogger)

/-- Looking a name up in the `cloggers` map. -/
def regLookup (regi : Registry) (name : String) : Option Clogger :=
  (regi.find? (fun p => p.1 = name)).map (fun p => p.2)

/-- Embeds `registerClogger`: fails when the name is already present
(the Go error string), otherwise inserts under `cl.Name`. -/
def registerClogger (regi : Registry) (cl : Clogger) : Except String Registry :=
  if (regLookup regi cl.Name).isSome then
    Except.error (PACKAGE_NAME ++ ": a logger with the name " ++ cl.Name ++ " already exists")
  else
    Except.ok (regi ++ [(cl.Name, cl)])

/-- Embeds `GetCloggerByName`; `none` models the `log.Panicf` call made
when no clogger by that name exists. -/
def GetCloggerByName (regi : Registry) (name : String) : Option Clogger :=
  regLookup regi name

/-- Registries built by registration: the empty map, extended by
successful `registerClogger` calls. -/
inductive Reachable : Registry → Prop
  | nil : Reachable []
  | step {regi regi' : Registry} {cl : Clogger} :
      Reachable regi → registerClogger regi cl = Except.ok regi' → Reachable regi'

/-- Embeds `NewClogger(name, logLevel, decorations...)` together with its
`registerClogger` side effect on the ambient registry: map the level to a
syslog priority (panic, `none`, if unmapped), or in the facility, attempt
the syslog handle (`syslogOK` says whether `syslog.NewLogger` succeeded in
this environment), register (panic, `none`, on duplicate). -/
def NewClogger (regi : Registry) (name : String) (logLevel : Int)
    (decorations : List Decoration) (syslogOK : Bool) : Option (Clogger × Registry) :=
  match LogLevelSysLogPriorityMap logLevel with
  | none => none
  | some priority =>
    let cl : Clogger :=
      { Name := name
        Priority := Nat.lor priority DEFAULT_LOG_FACILITY
        Decorations := decorations
        Logger := syslogOK
        LogLevel := logLevel }
    match registerClogger regi cl with
    | Except.error _ => none
    | Except.ok regi' => some (cl, regi')

/-- Embeds the `defaultCloggers` bootstrap: the six default profiles are
created (and hence registered) in order; `none` models a bootstrap
panic (which never occurs, see `defaultRegistry_ok`). -/
def defaultRegistry (syslogOK : Bool) : Option Registry :=
  (NewClogger [] "Debug" LogLevelDebug [FG_WHITE] syslogOK).bind fun x =>
  (NewClogger x.2 "Info" LogLevelInfo [FG_GREEN] syslogOK).bind fun x =>
  (NewClogger x.2 "Notice" LogLevelNotice [FG_CYAN] syslogOK).bind fun x =>
  (NewClogger x.2 "Warning" LogLevelWarning [FG_YELLOW] syslogOK).bind fun x =>
  (NewClogger x.2 "Error" LogLevelError [FG_RED] syslogOK).bind fun x =>
  (NewClogger x.2 "Crit" LogLevelCrit [FG_MAGENTA] syslogOK).bind fun x =>
  some x.2

/-- The bootstrapped registry with the panic case defaulted away;
`defaultRegistry_ok` below proves no panic occurs. -/
def defaultRegistryD (syslogOK : Bool) : Registry :=
  (defaultRegistry syslogOK).getD []

/-- Embeds the convenience function `Info(msg)`: look the "Info" profile
up (panic, `none`, if absent — it never is) and print through it. -/
def Info (cfg : Config) (regi : Registry) (msg : String) : Option Output :=
  (GetCloggerByName regi "Info").map (fun cl => Print cfg cl msg)

/-! ### Color helpers -/

/-- Embeds `PrintWithDecorations(msg, decorations...)`: decorate and
`fmt.Println`, reading none of the configuration flags (the `cfg`
argument is deliberately unused, as the Go function reads no globals)
and touching neither the registry nor syslog. -/
def PrintWithDecorations (cfg : Config) (msg : String) (decorations : List Decoration) : Output :=
  { syslogMsgs := [], stdoutLines := [decorate msg decorations] }

/-- Embeds `Red(msg)` = `PrintWithDecorations(msg, FG_RED)`. -/
def Red (cfg : Config) (msg : String) : Output :=
  PrintWithDecorations cfg msg [FG_RED]

/-- Embeds `Green(msg)`. -/
def Green (cfg : Config) (msg : String) : Output :=
  PrintWithDecorations cfg msg [FG_GREEN]

/-- Embeds `Yellow(msg)`. -/
def Yellow (cfg : Config) (msg : String) : Output :=
  PrintWithDecorations cfg msg [FG_YELLOW]

/-- Embeds `Blue(msg)`. -/
def Blue (cfg : Config) (msg : String) : Output :=
  PrintWithDecorations cfg msg [FG_BLUE]

/-- Embeds `Redf(msg, args...)` = `Red(fmt.Sprintf(msg, args...))`; the
already-formatted string is the argument. -/
def Redf (cfg : Config) (formatted : String) : Output :=
  Red cfg formatted

/-- Embeds `Greenf`. -/
def Greenf (cfg : Config) (formatted : String) : Output :=
  Green cfg formatted

/-- Embeds `Yellowf`. -/
def Yellowf (cfg : Config) (formatted : String) : Output :=
  Yellow cfg formatted

/-- Embeds `Bluef`. -/
def Bluef (cfg : Config) (formatted : String) : Output :=
  Blue cfg formatted

/-! ### The decoration validator -/

/-- Matches the `[0-9;]*[mG]$` tail of the sgr regex over a character
list: zero or more digits or semicolons, then a final `m` or `G`. -/
def sgrTail : List Char → Bool
  | [] => false
  | [c] => c == 'm' || c == 'G'
  | c :: rest => (c.isDigit || c == ';') && sgrTail rest

/-- Embeds the regex check from `NewDecoration`, the anchored pattern
ESC `[` then `[0-9;]*` then `m` or `G` (ESC = 0x1b). -/
def validateSgr (s : String) : Bool :=
  match s.data with
  | c₀ :: c₁ :: rest => c₀ == '\x1b' && c₁ == '[' && sgrTail rest
  | _ => false

/-- The Go panic message of `NewDecoration` for a rejected code. -/
def invalidSgrMsg (sgrCode : String) : String :=
  PACKAGE_NAME ++ ": invalid sgr code '" ++ sgrCode ++ "' provided"

/-- Embeds `NewDecoration(sgrCode)`: panics (`Except.error`) when the
regex does not match, otherwise casts the string to a Decoration. -/
def NewDecoration (sgrCode : String) : Except String Decoration :=
  if validateSgr sgrCode then Except.ok sgrCode
  else Except.error (invalidSgrMsg sgrCode)

/-- Declarative reading of the accepted pattern `^ESC\[[0-9;]*[mG]$`:
the characters are ESC, `[`, a body of digits and semicolons, and a
final `m` or `G`. -/
def SGRPattern (s : String) : Prop :=
  ∃ (mid : List Char) (last : Char),
    s.data = '\x1b' :: '[' :: (mid ++ [last])
    ∧ (∀ c ∈ mid, c.isDigit ∨ c = ';')
    ∧ (last = 'm' ∨ last = 'G')

/-! ### RemoveDecoration, with Go slice semantics

The Go loop

  for i, _d := range l.Decorations {
    if d == _d {
      l.Decorations = append(l.Decorations[:i], l.Decorations[i+1:]...)
    }
  }

iterates over the slice header captured at loop entry (length `n₀`) while
`append` rewrites the shared backing array in place and shrinks
`l.Decorations`.  The model keeps the backing array `A` (always of length
`n₀`, the capacity) and the current length `len` explicit.  At a matching
index `i` the slice expression `l.Decorations[i+1:]`, whose implicit high
bound is the current `len`, panics (`none`) when `i + 1 > len`; otherwise
the elements `A[i+1 .. len)` are copied down one slot and `len` drops by
one, the cells at `len-1` and beyond keeping their stale values. -/

/-- Embeds `AddDecoration(d)`: appends to the clogger's decorations. -/
def AddDecoration (l : Clogger) (d : Decoration) : Clogger :=
  { l with Decorations := l.Decorations ++ [d] }

/-- One pass of the `RemoveDecoration` loop; `fuel` counts the remaining
iterations (structurally), `i` is the current index into the captured
range header, `A` the backing array (length `n₀`), `len` the current
length of `l.Decorations`. -/
def removeLoop (d : Decoration) : Nat → Nat → List Decoration → Nat →
    Option (List Decoration × Nat)
  | 0, _, A, len => some (A, len)
  | fuel + 1, i, A, len =>
    if A.getD i "" = d then
      if i + 1 ≤ len then
        removeLoop d fuel (i + 1)
          (A.take i ++ (A.drop (i + 1)).take (len - (i + 1)) ++ A.drop (len - 1))
          (len - 1)
      else
        none
    else
      removeLoop d fuel (i + 1) A len

/-- Embeds `RemoveDecoration(d)` on a clogger holding `orig`: runs the
range loop; `none` models a slice-bounds panic, otherwise the resulting
decoration list is the final `l.Decorations` view `A[0 .. len)`. -/
def RemoveDecoration (d : Decoration) (orig : List Decoration) : Option (List Decoration) :=
  (removeLoop d orig.length 0 orig orig.length).map (fun r => r.1.take r.2)

/-! ## Theorems -/

/-- C1 (counterexample): the claim says `decorate(m, [])` equals `m`
unchanged with no trailing reset; the code appends `RESET`
unconditionally, so already at `m = "hello"` the two differ. -/
theorem decorate_empty_counterexample : ¬ decorate "hello" [] = "hello" := by
  decide

/-- C1 (amended): for every message `m` and decorations `A`, `B`,
`decorate(m, [A, B]) = A ++ B ++ m ++ RESET`; and `decorate(m, [])`
equals `m ++ RESET` — the trailing reset code is appended even when the
decoration sequence is empty. -/
theorem decorate_wrapping_amended (m A B : String) :
    decorate m [A, B] = A ++ B ++ m ++ RESET ∧ decorate m [] = m ++ RESET :=
  ⟨rfl, rfl⟩

/-- C2 (counterexample): under the default configuration (with the
current time rendering as `"T"`), `Info "hello"` does not emit the line
claimed by the spec's template `<decoration-code>[Info] <timestamp>
m<reset-code>`: in that template the timestamp sits next to the message,
while the code renders the name prefix innermost. -/
theorem info_claimed_field_order_counterexample :
    Info (defaultConfig "T") (defaultRegistryD false) "hello"
      ≠ some { syslogMsgs := [],
               stdoutLines := [FG_GREEN ++ "[Info] " ++ "T" ++ " " ++ "hello" ++ RESET] } := by
  decide

/-- C2 (amended): under the default configuration, for every message `m`
(and every rendered timestamp `ts` and syslog availability), the default
bootstrap succeeds and `Info m` emits exactly one standard-output line
`<decoration-code><timestamp> [Info] m<reset-code>` — name prefix
innermost (adjacent to the message), timestamp next, decoration codes
outermost — and performs zero system-log deliveries. -/
theorem info_default_line (ts m : String) (syslogOK : Bool) :
    defaultRegistry syslogOK = some (defaultRegistryD syslogOK)
    ∧ Info (defaultConfig ts) (defaultRegistryD syslogOK) m
        = some { syslogMsgs := [],
                 stdoutLines := [FG_GREEN ++ (ts ++ " " ++ ("[Info] " ++ m)) ++ RESET] } := by
  cases syslogOK <;> exact ⟨rfl, rfl⟩

/-- C3: `Print` writes a standard-output line iff the terminal sink is
globally enabled and the clogger's level is at or above the global
minimum level; at most one line is written; in particular with the
global minimum at Warning, an Info-level clogger writes nothing and an
Error-level clogger (terminal sink enabled) writes exactly one line. -/
theorem print_level_gating (cfg : Config) (l : Clogger) (m : String) :
    ((Print cfg l m).stdoutLines ≠ [] ↔ cfg.LogToStdOut = true ∧ cfg.LogLevel ≤ l.LogLevel)
    ∧ ((Print cfg l m).stdoutLines = [] ∨ (Print cfg l m).stdoutLines.length = 1)
    ∧ (cfg.LogLevel = LogLevelWarning →
        ((l.LogLevel = LogLevelInfo → (Print cfg l m).stdoutLines = [])
         ∧ (cfg.LogToStdOut = true → l.LogLevel = LogLevelError →
             (Print cfg l m).stdoutLines.length = 1))) := by
  by_cases h : cfg.LogToStdOut = true ∧ cfg.LogLevel ≤ l.LogLevel
  · refine ⟨by simp [Print, h], by simp [Print, h],
      fun hw => ⟨fun hi => ?_, fun _ _ => by simp [Print, h]⟩⟩
    rw [hw, hi] at h
    exact absurd h.2 (by decide)
  · refine ⟨by simp [Print, h], by simp [Print, h],
      fun hw => ⟨fun hi => by simp [Print, h], fun ht he => ?_⟩⟩
    rw [hw, he] at h
    exact absurd ⟨ht, by decide⟩ h

/-- C3 (witness): with the global minimum level Warning, an Info-level
clogger prints nothing and an Error-level clogger prints one line. -/
theorem print_level_gating_witness :
    (Print { defaultConfig "T" with LogLevel := LogLevelWarning }
      ⟨"Info", 142, [], false, LogLevelInfo⟩ "x").stdoutLines = []
    ∧ (Print { defaultConfig "T" with LogLevel := LogLevelWarning }
      ⟨"Error", 139, [], false, LogLevelError⟩ "x").stdoutLines.length = 1 :=
  ⟨((print_level_gating _ _ _).2.2 rfl).1 rfl,
   ((print_level_gating _ _ _).2.2 rfl).2 rfl rfl⟩

/-- C4: `Print` delivers to the system log iff the syslog sink is
globally enabled and the clogger holds a live handle; the delivery is the
name-prefixed raw message (untimestamped, undecorated) at the clogger's
priority; and the two sinks are independent: terminal off / syslog on
gives zero stdout lines and one delivery, syslog off / terminal on (level
admitted) gives zero deliveries and one stdout line. -/
theorem print_syslog_independent (cfg : Config) (l : Clogger) (m : String) :
    ((Print cfg l m).syslogMsgs ≠ [] ↔ cfg.LogToSyslog = true ∧ l.Logger = true)
    ∧ (cfg.LogToSyslog = true → l.Logger = true →
        (Print cfg l m).syslogMsgs = [(l.Priority, "[" ++ l.Name ++ "] " ++ m)])
    ∧ (cfg.LogToSyslog = true → l.Logger = true → cfg.LogToStdOut = false →
        (Print cfg l m).stdoutLines = [] ∧ (Print cfg l m).syslogMsgs.length = 1)
    ∧ (cfg.LogToSyslog = false → cfg.LogToStdOut = true → cfg.LogLevel ≤ l.LogLevel →
        (Print cfg l m).syslogMsgs = [] ∧ (Print cfg l m).stdoutLines.length = 1) := by
  refine ⟨?_, fun h1 h2 => ?_, fun h1 h2 h3 => ⟨?_, ?_⟩, fun h1 h2 h3 => ⟨?_, ?_⟩⟩
  · by_cases h : cfg.LogToSyslog = true ∧ l.Logger = true <;> simp [Print, h]
  · simp [Print, h1, h2]
  · simp [Print, h3]
  · simp [Print, h1, h2]
  · simp [Print, h1]
  · simp [Print, h2, h3]

/-- C4 (witness): terminal sink off, syslog sink on, live handle: zero
standard-output lines and one system-log delivery. -/
theorem print_syslog_independent_witness :
    (Print { defaultConfig "T" with LogToStdOut := false, LogToSyslog := true }
      ⟨"X", 142, [], true, LogLevelInfo⟩ "x").stdoutLines = []
    ∧ (Print { defaultConfig "T" with LogToStdOut := false, LogToSyslog := true }
      ⟨"X", 142, [], true, LogLevelInfo⟩ "x").syslogMsgs.length = 1 :=
  (print_syslog_independent _ _ _).2.2.1 rfl rfl rfl

/-- Helper: looking up a fresh name after appending a registration. -/
theorem regLookup_append_none (regi : Registry) (n : String) (cl : Clogger) (x : String)
    (h : regLookup regi x = none) :
    regLookup (regi ++ [(n, cl)]) x = if n = x then some cl else none := by
  unfold regLookup at h ⊢
  have hf : regi.find? (fun p => p.1 = x) = none := by
    cases hq : regi.find? (fun p => p.1 = x) <;> simp [hq] at h ⊢
  rw [List.find?_append, hf]
  by_cases hx : n = x <;> simp [List.find?, hx]

/-- C5: registering a fresh name succeeds, registering a second clogger
with the same name fails with the duplicate-name error, and the registry
still maps that name to the first clogger. -/
theorem register_duplicate_rejected (regi : Registry) (cl₁ cl₂ : Clogger)
    (hname : cl₂.Name = cl₁.Name) (habs : regLookup regi cl₁.Name = none) :
    ∃ regi', registerClogger regi cl₁ = Except.ok regi'
      ∧ registerClogger regi' cl₂ = Except.error
          (PACKAGE_NAME ++ ": a logger with the name " ++ cl₂.Name ++ " already exists")
      ∧ regLookup regi' cl₁.Name = some cl₁
      ∧ regLookup regi' cl₂.Name = some cl₁ := by
  have hlook : regLookup (regi ++ [(cl₁.Name, cl₁)]) cl₁.Name = some cl₁ := by
    rw [regLookup_append_none regi cl₁.Name cl₁ cl₁.Name habs]
    simp
  refine ⟨regi ++ [(cl₁.Name, cl₁)], ?_, ?_, hlook, by rw [hname]; exact hlook⟩
  · simp [registerClogger, habs]
  · simp [registerClogger, hname, hlook]

/-- C5 (witness): concrete duplicate registration under the name "X". -/
theorem register_duplicate_rejected_witness :
    ∃ regi', registerClogger [] ⟨"X", 142, [], false, LogLevelInfo⟩ = Except.ok regi'
      ∧ registerClogger regi' ⟨"X", 139, [FG_RED], false, LogLevelError⟩ = Except.error
          (PACKAGE_NAME ++ ": a logger with the name " ++ "X" ++ " already exists")
      ∧ regLookup regi' "X" = some ⟨"X", 142, [], false, LogLevelInfo⟩ := by
  obtain ⟨r, h1, h2, h3, _⟩ := register_duplicate_rejected []
    ⟨"X", 142, [], false, LogLevelInfo⟩ ⟨"X", 139, [FG_RED], false, LogLevelError⟩ rfl rfl
  exact ⟨r, h1, h2, h3⟩

/-- Helper: every registry built by registration maps each name to a
clogger carrying that name. -/
theorem reachable_wf {regi : Registry} (h : Reachable regi) :
    ∀ p ∈ regi, p.2.Name = p.1 := by
  induction h with
  | nil => simp
  | step hr hreg ih =>
    rename_i r r' cl
    unfold registerClogger at hreg
    split at hreg
    · exact absurd hreg (by simp)
    · injection hreg with hreg
      subst hreg
      intro p hp
      rcases List.mem_append.1 hp with h1 | h2
      · exact ih p h1
      · simp at h2
        rw [h2]

/-- C6: in a registry built by registration, a successful lookup of a
name returns a clogger bearing that very name; a registered name always
looks up successfully with the right name; and looking up an absent name
yields the panic outcome (`none` models `log.Panicf`). -/
theorem lookup_registered_name (regi : Registry) (h : Reachable regi) (name : String) :
    (∀ cl, GetCloggerByName regi name = some cl → cl.Name = name)
    ∧ ((∃ p ∈ regi, p.1 = name) → ∃ cl, GetCloggerByName regi name = some cl ∧ cl.Name = name)
    ∧ ((∀ p ∈ regi, p.1 ≠ name) → GetCloggerByName regi name = none) := by
  refine ⟨fun cl hcl => ?_, fun ⟨p, hmem, hpname⟩ => ?_, fun hall => ?_⟩
  · unfold GetCloggerByName regLookup at hcl
    cases hf : regi.find? (fun p => p.1 = name) with
    | none => rw [hf] at hcl; simp at hcl
    | some q =>
      rw [hf] at hcl
      simp at hcl
      have hq : q.1 = name := by simpa using List.find?_some hf
      have hmem := List.mem_of_find?_eq_some hf
      rw [← hcl, reachable_wf h q hmem, hq]
  · have hs : (regi.find? (fun p => p.1 = name)).isSome :=
      List.find?_isSome.2 ⟨p, hmem, by simp [hpname]⟩
    obtain ⟨q, hq⟩ := Option.isSome_iff_exists.1 hs
    refine ⟨q.2, by simp [GetCloggerByName, regLookup, hq], ?_⟩
    have hq1 : q.1 = name := by simpa using List.find?_some hq
    rw [reachable_wf h q (List.mem_of_find?_eq_some hq), hq1]
  · unfold GetCloggerByName regLookup
    have hf : regi.find? (fun p => p.1 = name) = none := by
      rw [List.find?_eq_none]
      intro p hp
      simp [hall p hp]
    simp [hf]

/-- C6 (witness): after registering a clogger named "X", looking "X" up
returns a clogger whose name is "X". -/
theorem lookup_registered_name_witness :
    ∃ cl, GetCloggerByName [("X", ⟨"X", 142, [], false, LogLevelInfo⟩)] "X" = some cl
      ∧ cl.Name = "X" :=
  (lookup_registered_name [("X", ⟨"X", 142, [], false, LogLevelInfo⟩)]
    (@Reachable.step [] [("X", ⟨"X", 142, [], false, LogLevelInfo⟩)]
      ⟨"X", 142, [], false, LogLevelInfo⟩ Reachable.nil rfl) "X").2.1
    ⟨("X", ⟨"X", 142, [], false, LogLevelInfo⟩), by simp, rfl⟩

/-- Helper: the tail matcher accepts exactly the strings of digits and
semicolons terminated by `m` or `G`. -/
theorem sgrTail_iff (l : List Char) : sgrTail l = true ↔
    ∃ (mid : List Char) (last : Char), l = mid ++ [last]
      ∧ (∀ c ∈ mid, c.isDigit ∨ c = ';') ∧ (last = 'm' ∨ last = 'G') := by
  induction l with
  | nil => simp [sgrTail]
  | cons c rest ih =>
    cases rest with
    | nil =>
      constructor
      · intro h
        refine ⟨[], c, rfl, by simp, ?_⟩
        have h' : (c == 'm' || c == 'G') = true := h
        simpa using h'
      · rintro ⟨mid, last, heq, hmid, hlast⟩
        cases mid with
        | nil =>
          simp only [List.nil_append, List.cons.injEq] at heq
          rw [heq.1]
          show (last == 'm' || last == 'G') = true
          simpa using hlast
        | cons a as =>
          simp only [List.cons_append, List.cons.injEq] at heq
          exact absurd heq.2 (by cases as <;> simp)
    | cons c' rest' =>
      constructor
      · intro h
        have h' : ((c.isDigit || c == ';') && sgrTail (c' :: rest')) = true := h
        rw [Bool.and_eq_true] at h'
        obtain ⟨mid, last, heq, hmid, hlast⟩ := ih.1 h'.2
        refine ⟨c :: mid, last, by simp [heq], ?_, hlast⟩
        intro x hx
        rcases List.mem_cons.1 hx with hx | hx
        · subst hx
          simpa using h'.1
        · exact hmid x hx
      · rintro ⟨mid, last, heq, hmid, hlast⟩
        cases mid with
        | nil => simp at heq
        | cons a as =>
          simp only [List.cons_append, List.cons.injEq] at heq
          obtain ⟨hca, heq'⟩ := heq
          subst hca
          show ((c.isDigit || c == ';') && sgrTail (c' :: rest')) = true
          rw [Bool.and_eq_true]
          refine ⟨by simpa using hmid c (by simp), ?_⟩
          exact ih.2 ⟨as, last, heq', fun x hx => hmid x (by simp [hx]), hlast⟩

/-- Helper: the embedded regex check accepts exactly the strings of the
declarative pattern `^ESC\[[0-9;]*[mG]$`. -/
theorem validateSgr_iff (s : String) : validateSgr s = true ↔ SGRPattern s := by
  unfold validateSgr SGRPattern
  cases hd : s.data with
  | nil => simp
  | cons c₀ t =>
    cases t with
    | nil =>
      constructor
      · intro h
        exact absurd h (by simp)
      · rintro ⟨mid, last, heq, hmid, hlast⟩
        exact absurd heq (by cases mid <;> simp)
    | cons c₁ rest =>
      constructor
      · intro h
        have h' : ((c₀ == '\x1b') && (c₁ == '[') && sgrTail rest) = true := h
        simp only [Bool.and_eq_true, beq_iff_eq] at h'
        obtain ⟨⟨h0, h1⟩, ht⟩ := h'
        obtain ⟨mid, last, heq, hmid, hlast⟩ := (sgrTail_iff rest).1 ht
        subst h0
        subst h1
        exact ⟨mid, last, by rw [heq], hmid, hlast⟩
      · rintro ⟨mid, last, heq, hmid, hlast⟩
        simp only [List.cons.injEq] at heq
        obtain ⟨h0, h1, heq'⟩ := heq
        show ((c₀ == '\x1b') && (c₁ == '[') && sgrTail rest) = true
        simp only [Bool.and_eq_true, beq_iff_eq]
        exact ⟨⟨h0, h1⟩, (sgrTail_iff rest).2 ⟨mid, last, heq', hmid, hlast⟩⟩

/-- C7: `NewDecoration s` succeeds iff `s` matches `^ESC\[[0-9;]*[mG]$`,
in which case the returned decoration's code is `s` itself; on any
non-matching input it fails with the invalid-sgr-code panic message. -/
theorem newDecoration_validates (s : String) :
    ((∃ d, NewDecoration s = Except.ok d ∧ d = s) ↔ SGRPattern s)
    ∧ (¬ SGRPattern s → NewDecoration s = Except.error (invalidSgrMsg s)) := by
  unfold NewDecoration
  by_cases h : validateSgr s = true
  · rw [if_pos h]
    exact ⟨⟨fun _ => (validateSgr_iff s).1 h, fun _ => ⟨s, rfl, rfl⟩⟩,
      fun hn => absurd ((validateSgr_iff s).1 h) hn⟩
  · rw [if_neg h]
    refine ⟨⟨?_, ?_⟩, fun _ => rfl⟩
    · rintro ⟨d, hd, _⟩
      exact absurd hd (by simp)
    · intro hp
      exact absurd ((validateSgr_iff s).2 hp) h

/-- C7 (witness): the reset code is accepted and returned verbatim. -/
theorem newDecoration_validates_witness :
    ∃ d, NewDecoration "\x1b[0m" = Except.ok d ∧ d = "\x1b[0m" :=
  (newDecoration_validates "\x1b[0m").1.mpr ⟨['0'], 'm', by decide, by decide, by decide⟩

/-- C8 (code bug): evaluating the embedded `RemoveDecoration` loop.  On
`[d, x, d, y]` with `d = FG_RED` the loop removes BOTH occurrences of
`d` (the in-place `append` shifts the second `d` under the still-running
range iteration), yielding `[x, y]` instead of the claimed `[x, d, y]`;
on `[d, d]` the loop panics with a slice-bounds error (`none`); the
no-op-when-absent part of the claim does hold. -/
theorem removeDecoration_goloop_eval :
    RemoveDecoration FG_RED [FG_RED, FG_GREEN, FG_RED, FG_BLUE] = some [FG_GREEN, FG_BLUE]
    ∧ RemoveDecoration FG_RED [FG_RED, FG_GREEN, FG_RED, FG_BLUE]
        ≠ some [FG_GREEN, FG_RED, FG_BLUE]
    ∧ RemoveDecoration FG_RED [FG_RED, FG_RED] = none
    ∧ RemoveDecoration FG_GREEN [FG_RED, FG_BLUE] = some [FG_RED, FG_BLUE] := by
  decide

/-- C9: the plain color helpers print exactly one decorated line to
standard output whatever the configuration flags say (two arbitrary
configurations give identical output), deliver nothing to the system
log, and (by construction, as in the source) consult no registry; the
`...f` variants print the formatted message the same way. -/
theorem color_helpers_unconditional (cfg cfg' : Config) (m : String) :
    Red cfg m = Red cfg' m
    ∧ Red cfg m = { syslogMsgs := [], stdoutLines := [FG_RED ++ m ++ RESET] }
    ∧ Green cfg m = { syslogMsgs := [], stdoutLines := [FG_GREEN ++ m ++ RESET] }
    ∧ Yellow cfg m = { syslogMsgs := [], stdoutLines := [FG_YELLOW ++ m ++ RESET] }
    ∧ Blue cfg m = { syslogMsgs := [], stdoutLines := [FG_BLUE ++ m ++ RESET] }
    ∧ Redf cfg m = Red cfg m
    ∧ Greenf cfg m = Green cfg m
    ∧ Yellowf cfg m = Yellow cfg m
    ∧ Bluef cfg m = Blue cfg m :=
  ⟨rfl, rfl, rfl, rfl, rfl, rfl, rfl, rfl, rfl⟩

/-- C10: the `PrependLoggerName` flag is never read: flipping it changes
neither `Print` nor `Printf` output, and on both the system-log path and
the terminal path every emitted message carries the `"[name] "` prefix
unconditionally. -/
theorem prependLoggerName_flag_unused (cfg : Config) (b : Bool) (l : Clogger)
    (m fs : String) (format : String → String) :
    Print { cfg with PrependLoggerName := b } l m = Print cfg l m
    ∧ Printf { cfg with PrependLoggerName := b } l fs format = Printf cfg l fs format
    ∧ (∀ pm ∈ (Print cfg l m).syslogMsgs, pm.2 = "[" ++ l.Name ++ "] " ++ m)
    ∧ (∀ s ∈ (Print cfg l m).stdoutLines, s = PrintStdOut cfg l ("[" ++ l.Name ++ "] " ++ m))
    ∧ (∀ pm ∈ (Printf cfg l fs format).syslogMsgs,
        pm.2 = format ("[" ++ l.Name ++ "] " ++ fs))
    ∧ (∀ s ∈ (Printf cfg l fs format).stdoutLines,
        s = PrintfStdOut cfg l ("[" ++ l.Name ++ "] " ++ fs) format) := by
  refine ⟨rfl, rfl, fun pm hpm => ?_, fun s hs => ?_, fun pm hpm => ?_, fun s hs => ?_⟩
  · simp only [Print] at hpm
    split at hpm <;> simp_all
  · simp only [Print] at hs
    split at hs <;> simp_all
  · simp only [Printf] at hpm
    split at hpm <;> simp_all
  · simp only [Printf] at hs
    split at hs <;> simp_all

/-- C10 (witness): flipping `PrependLoggerName` leaves a concrete
`Print` call's output unchanged. -/
theorem prependLoggerName_flag_unused_witness :
    Print { defaultConfig "T" with PrependLoggerName := false }
        ⟨"X", 142, [], false, LogLevelInfo⟩ "x"
      = Print (defaultConfig "T") ⟨"X", 142, [], false, LogLevelInfo⟩ "x" :=
  (prependLoggerName_flag_unused (defaultConfig "T") false
    ⟨"X", 142, [], false, LogLevelInfo⟩ "x" "y" id).1

end Clog
